import Mathlib

/-!
Verification development for the traffic-simulation service
(`src/api/services/traffic.py` and `src/api/main.py`).

Each definition below is a shallow embedding of a function of the source,
translated directly from the Python code; theorems settle the frozen claims
about the specification.  Python floats are modelled as exact rationals
(`ℚ`), and the one place the code takes a Euclidean norm (`np.linalg.norm`)
is modelled over `ℝ` with `Real.sqrt`.  Randomness (`np.random.*`) is
modelled by explicit streams passed as arguments, consumed in iteration
order, exactly where the code draws them.
-/

namespace Traffic

/-- State of one traffic light: the strings `'red'` / `'green'` of the source. -/
inductive LightState where
  | red
  | green
deriving DecidableEq, Repr

/-- The state flip performed by `step`:
`'green' if current_state == 'red' else 'red'` (traffic.py line 670). -/
def LightState.flip : LightState → LightState
  | .red => .green
  | .green => .red

/-- One traffic signal entry: the per-node values held in
`traffic_light_states`, `traffic_light_timers` and `traffic_light_cycle_times`
(traffic.py lines 426-438). -/
structure Signal where
  state : LightState
  timer : Nat
  redDur : Nat
  greenDur : Nat
deriving DecidableEq, Repr

/-- `self.traffic_light_cycle_times[node_id][current_state]`
(traffic.py line 667). -/
def cycleDuration (s : Signal) : Nat :=
  match s.state with
  | .red => s.redDur
  | .green => s.greenDur

/-- One tick of one signal, the loop body of `step` (traffic.py lines 663-670):
increment the timer; if the incremented timer is `>=` the cycle duration of
the current state, reset the timer to `0` and flip the state. -/
def advanceSignal (s : Signal) : Signal :=
  let t := s.timer + 1
  if cycleDuration s ≤ t then
    { s with timer := 0, state := s.state.flip }
  else
    { s with timer := t }

/-- The signal table `node_id -> Signal`, kept as an association list in
iteration order of `self.traffic_signals`. -/
abbrev LightTables := List (Nat × Signal)

/-- Body of `_initialize_traffic_lights` (traffic.py lines 425-438): for each
signal node, draw a random initial state, set the timer to `0`, and draw two
independent random cycle durations with `np.random.randint(20, 40)`
(uniform integer in `[20, 39]`, modelled as `20 + r % 20` over an arbitrary
draw stream indexed by iteration position). -/
def initTrafficLights (signals : List Nat) (randState : Nat → LightState)
    (randRed randGreen : Nat → Nat) : LightTables :=
  signals.enum.map (fun e =>
    (e.2, ⟨randState e.1, 0, 20 + randRed e.1 % 20, 20 + randGreen e.1 % 20⟩))

/-- `_initialize_traffic_lights` (traffic.py lines 416-441) as an update of
the (possibly absent) light tables.  The tables are `none` when the
attributes `traffic_light_states` / `traffic_light_timers` /
`traffic_light_cycle_times` have never been created.  After construction the
attribute `traffic_signals` always exists (it is set unconditionally in
`_load_and_merge_graph_tiles`, line 154), so the guard of line 419 reduces to
`not self.show_traffic_lights`: in that case the method returns without
touching the tables; otherwise it rebuilds them from scratch for every
currently discovered signal node, discarding `prior` entirely. -/
def runInitTrafficLights (showTrafficLights : Bool) (signals : List Nat)
    (prior : Option LightTables) (randState : Nat → LightState)
    (randRed randGreen : Nat → Nat) : Option LightTables :=
  if !showTrafficLights then prior
  else some (initTrafficLights signals randState randRed randGreen)

/-- The traffic-light part of `update_bounds` (traffic.py lines 443-477).
`tilesAlreadyLoaded` is the result of the loop over `required_tiles`
(lines 452-458); `priorSignals` is `self.traffic_signals` before the call;
`discovered` is the signal-node set that `_load_traffic_signals_for_bbox`
would produce for the new bounds.  When the tiles are already loaded, the
lights are reloaded and re-initialized only if they are newly shown and the
signal set is empty (lines 463-467); otherwise nothing happens to them.
When new tiles are needed, `_load_and_merge_graph_tiles` resets the signal
set (and rediscovers it only if lights are shown, lines 154, 242-243) and
then `_initialize_traffic_lights` runs (line 475). -/
def updateBoundsLights (tilesAlreadyLoaded : Bool)
    (showTrafficLights oldShowTrafficLights : Bool)
    (priorSignals discovered : List Nat) (prior : Option LightTables)
    (randState : Nat → LightState) (randRed randGreen : Nat → Nat) :
    Option LightTables :=
  if tilesAlreadyLoaded then
    if showTrafficLights ∧ ¬oldShowTrafficLights ∧ priorSignals.isEmpty then
      runInitTrafficLights showTrafficLights discovered prior
        randState randRed randGreen
    else prior
  else
    runInitTrafficLights showTrafficLights
      (if showTrafficLights then discovered else []) prior
      randState randRed randGreen

/-- Errors a tick of the simulation can raise, as Python exception kinds. -/
inductive PyError where
  | providerError
  | attributeError
  | indexError
deriving DecidableEq, Repr

/-- Construction-time light setup: `__init__` (traffic.py lines 101-102)
first runs `_load_and_merge_graph_tiles`, which sets
`self.traffic_signals = set()` and discovers signals only when
`show_traffic_lights` is true (lines 154, 242-243), then calls
`_initialize_traffic_lights`.  Before construction no table attribute
exists, so `prior = none`. -/
def envInitLights (showTrafficLights : Bool) (discovered : List Nat)
    (randState : Nat → LightState) (randRed randGreen : Nat → Nat) :
    Option LightTables :=
  runInitTrafficLights showTrafficLights
    (if showTrafficLights then discovered else []) none
    randState randRed randGreen

/-- The traffic-light phase of `step` (traffic.py lines 663-670):
`for node_id, timer in self.traffic_light_timers.items(): ...`.
When the table attributes were never created, the very first attribute
access `self.traffic_light_timers` raises `AttributeError`; otherwise every
signal advances by `advanceSignal`. -/
def stepTrafficLightsPhase : Option LightTables → Except PyError LightTables
  | none => .error .attributeError
  | some t => .ok (t.map (fun e => (e.1, advanceSignal e.2)))

/-- The concrete signal of the spec's cycle-correctness property:
cycle durations `{red: 20, green: 30}`, starting red with timer `0`. -/
def sigRed20Green30 : Signal := ⟨.red, 0, 20, 30⟩

/-- A viewport bounding box `{minLat, maxLat, minLng, maxLng}`, all degrees.
Python floats are modelled as exact rationals. -/
structure Bounds where
  minLat : ℚ
  maxLat : ℚ
  minLng : ℚ
  maxLng : ℚ
deriving DecidableEq, Repr

/-- Round a rational to the nearest integer, ties to even.  This is the
rounding Python's fixed-point formatting applies to the (exact) value being
rendered; exact ties cannot arise from binary doubles at scale `1e-4`, so
the tie rule is immaterial for inputs coming from the source. -/
def rndHalfEven (q : ℚ) : ℤ :=
  let f := ⌊q⌋
  if q - f < 1 / 2 then f
  else if 1 / 2 < q - f then f + 1
  else if f % 2 = 0 then f else f + 1

/-- Left-pad the fractional part to four digits. -/
def pad4 (n : Nat) : String :=
  if n < 10 then "000" ++ toString n
  else if n < 100 then "00" ++ toString n
  else if n < 1000 then "0" ++ toString n
  else toString n

/-- Python's `f"{q:.4f}"`: the value rounded (half-even) to four decimal
places and rendered with exactly four fractional digits.  A negative value
that rounds to zero keeps its minus sign, as CPython prints `-0.0000`. -/
def fmt4 (q : ℚ) : String :=
  let n := rndHalfEven (q * 10000)
  let sign := if q < 0 then "-" else ""
  let a := n.natAbs
  sign ++ toString (a / 10000) ++ "." ++ pad4 (a % 10000)

/-- The string hashed by `_get_cache_path` (traffic.py lines 111-121):
`f"{minLat:.4f},{maxLat:.4f},{minLng:.4f},{maxLng:.4f}"`.  The cache file
name is the SHA-1 hex digest of this string plus `".json"`; SHA-1 is a fixed
deterministic function, so two bounds share a tile key exactly when they
produce the same string here (distinct short strings do not collide), and we
reason at the level of this hash input. -/
def cachePathInput (b : Bounds) : String :=
  fmt4 b.minLat ++ "," ++ fmt4 b.maxLat ++ "," ++ fmt4 b.minLng ++ "," ++
    fmt4 b.maxLng

/-- Two values whose decimal expansions agree through the fourth decimal
place, i.e. they differ only beyond it (truncation at `1e-4` coincides). -/
def agreesToFourDecimals (x y : ℚ) : Prop :=
  ⌊x * 10000⌋ = ⌊y * 10000⌋

/-- Fieldwise agreement of two bounds through the fourth decimal place. -/
def boundsAgreeToFourDecimals (b1 b2 : Bounds) : Prop :=
  agreesToFourDecimals b1.minLat b2.minLat ∧
  agreesToFourDecimals b1.maxLat b2.maxLat ∧
  agreesToFourDecimals b1.minLng b2.minLng ∧
  agreesToFourDecimals b1.maxLng b2.maxLng

instance (b1 b2 : Bounds) : Decidable (boundsAgreeToFourDecimals b1 b2) := by
  unfold boundsAgreeToFourDecimals agreesToFourDecimals
  infer_instance

/-- `_generate_snapped_bounds` (traffic.py lines 548-564): floor the mins and
ceil the maxes to multiples of `snap_resolution`, then force at least one
resolution step on each axis. -/
def generateSnappedBounds (b : Bounds) (res : ℚ) : Bounds :=
  let sMinLat := (⌊b.minLat / res⌋ : ℚ) * res
  let sMaxLat0 := (⌈b.maxLat / res⌉ : ℚ) * res
  let sMinLng := (⌊b.minLng / res⌋ : ℚ) * res
  let sMaxLng0 := (⌈b.maxLng / res⌉ : ℚ) * res
  let sMaxLat := if sMaxLat0 ≤ sMinLat then sMinLat + res else sMaxLat0
  let sMaxLng := if sMaxLng0 ≤ sMinLng then sMinLng + res else sMaxLng0
  ⟨sMinLat, sMaxLat, sMinLng, sMaxLng⟩

/-- `_get_required_tile_bounds` (traffic.py lines 123-135): when either axis
span exceeds `max_zoom`, recompute both maxes as
`min + min(span, max_zoom)`, then snap.  The function returns a one-element
list in the source; we return that single tile's bounds. -/
def getRequiredTileBounds (b : Bounds) (maxZoom res : ℚ) : Bounds :=
  let latSpan := b.maxLat - b.minLat
  let lngSpan := b.maxLng - b.minLng
  let clamped :=
    if maxZoom < latSpan ∨ maxZoom < lngSpan then
      { b with maxLat := b.minLat + min latSpan maxZoom,
               maxLng := b.minLng + min lngSpan maxZoom }
    else b
  generateSnappedBounds clamped res

/-- The raw road graph returned by `ox.graph_from_bbox` before the
speed/projection pipeline runs: nodes and directed edges. -/
structure RawGraph where
  nodes : List Nat
  edges : List (Nat × Nat)
deriving DecidableEq, Repr

/-- One tile as `_load_tile_graph` returns it: both graph representations,
the valid-vehicle-node list, and the node-position table. -/
structure Tile where
  projNodes : List Nat
  projEdges : List (Nat × Nat)
  unprojNodes : List Nat
  unprojEdges : List (Nat × Nat)
  validVehicleNodeIds : List Nat
  nodePositions : List (Nat × (ℚ × ℚ))
deriving DecidableEq, Repr

/-- The empty-tile sentinel cached when OSM reports no data for a region
(traffic.py lines 326-349): empty graphs, empty node set. -/
def emptyTile : Tile := ⟨[], [], [], [], [], []⟩

/-- Outcome of the map-data provider call `ox.graph_from_bbox`
(traffic.py line 321): no data in the region (`InsufficientResponseError`),
some other exception, or a raw graph. -/
inductive ProviderResult where
  | noData
  | failed
  | fetched (g : RawGraph)
deriving DecidableEq, Repr

/-- What one fetch-path run of `_load_tile_graph` produces: the value
returned to the caller (`none` models Python `None`) and what got persisted
to the cache file for this tile key during the call. -/
structure LoadOutcome where
  returned : Option Tile
  cached : Option Tile
deriving DecidableEq, Repr

/-- The fetch path of `_load_tile_graph` (traffic.py lines 314-414), taken on
a cache miss or forced refresh.  `process` is the
speeds/travel-times/projection/GeoDataFrame pipeline of lines 352-409, which
either yields a tile (persisted and returned) or raises (caught by the
`except Exception` of line 410: `None` returned and nothing reaches the
cache path, since the atomic rename of line 396 never ran).  Only
`InsufficientResponseError` is caught around the fetch itself (line 326):
that case synthesizes and persists the empty tile; any other exception
raised by the fetch propagates out of the function uncaught. -/
def loadTileGraphFetch (pr : ProviderResult) (process : RawGraph → Option Tile) :
    Except PyError LoadOutcome :=
  match pr with
  | .noData => .ok ⟨some emptyTile, some emptyTile⟩
  | .failed => .error .providerError
  | .fetched g =>
    match process g with
    | some t => .ok ⟨some t, some t⟩
    | none => .ok ⟨none, none⟩

/-- One planning attempt inside `respawn_agent`'s loop (traffic.py lines
747-762).  `sp x y` models `nx.shortest_path(..., source=x, target=y,
weight='length')`: `some p` when a path exists, `none` when it raises
(`NetworkXNoPath`, `NodeNotFound`, or any other exception — all of which the
code turns into a retry).  An attempt is accepted only when the path has
more than one node (`if len(path) > 1`). -/
def acceptAttempt (sp : Nat → Nat → Option (List Nat)) (d : Nat × Nat) :
    Option (List Nat) :=
  match sp d.1 d.2 with
  | some p => if 1 < p.length then some p else none
  | none => none

/-- The bounded retry loop `for _ in range(20)` of `respawn_agent`:
attempt `i` draws the pair `draws i` (modelling the
`np.random.choice(nodes, 2, replace=False)` of line 749) and stops at the
first accepted path; the fuel argument is the remaining attempt budget. -/
def tryPathsFrom (sp : Nat → Nat → Option (List Nat))
    (draws : Nat → Nat × Nat) : Nat → Nat → Option (List Nat)
  | _, 0 => none
  | i, fuel + 1 =>
    match acceptAttempt sp (draws i) with
    | some p => some p
    | none => tryPathsFrom sp draws (i + 1) fuel

/-- The path-selection core of `respawn_agent` (traffic.py lines 733-762):
candidate pool is the viewport node set, falling back to the full
valid-vehicle-node list when fewer than 2 qualify; with still fewer than 2
candidates the agent is left path-less; otherwise up to 20 attempts run. -/
def respawnAgentPlan (viewportNodes allValidNodes : List Nat)
    (sp : Nat → Nat → Option (List Nat)) (draws : Nat → Nat × Nat) :
    Option (List Nat) :=
  let cands := if viewportNodes.length < 2 then allValidNodes else viewportNodes
  if cands.length < 2 then none
  else tryPathsFrom sp draws 0 20

/-- The two kinds of cancellable background tasks of the websocket handler
(main.py): the tick loop (`simulation_task`) and the pool-resize task
(`agent_setter_task`). -/
inductive TaskKind where
  | sim
  | setter
deriving DecidableEq, Repr

/-- Task-related and messaging steps the handler performs, in program order.
`cancel k` is `task.cancel()` (a cancellation request); `awaitJoin k` would
be awaiting the cancelled task's termination — the source never performs it;
`create k` is `asyncio.create_task(...)`; `send` collapses the
`websocket.send_json` calls. -/
inductive HandlerAction where
  | cancel (k : TaskKind)
  | awaitJoin (k : TaskKind)
  | create (k : TaskKind)
  | send
deriving DecidableEq, Repr

/-- Whether an action awaits a cancelled task's termination. -/
def HandlerAction.isJoin : HandlerAction → Bool
  | .awaitJoin _ => true
  | _ => false

/-- Handler-local state across control messages (main.py lines 34-37):
whether each task variable currently holds a task, whether the setter task
has completed (`agent_setter_task.done()`), and whether `env` exists. -/
structure HandlerState where
  simTask : Bool
  setterTask : Bool
  setterDone : Bool
  envStarted : Bool
deriving DecidableEq, Repr

/-- Control events delivered over the websocket, with the presence of their
required field (`bounds` / `num_agents`). -/
inductive ControlEvent where
  | start (hasBounds : Bool)
  | updateBounds (hasBounds : Bool)
  | setNumAgents (hasNum : Bool)
  | stop
deriving DecidableEq, Repr

/-- One iteration of the websocket receive loop
(`websocket_endpoint_traffic`, main.py lines 39-170), restricted to its
task-management and send effects, returning the new handler state and the
ordered list of actions performed.  On `start` (lines 43-100): cancel the
extant simulation and setter tasks, build the env, send the initial road
network, then create the new simulation task — with no await of the
cancelled tasks' termination anywhere in between.  On `set_num_agents`
(lines 149-161): cancel the extant unfinished setter task, send an info
message, and immediately create the replacement setter task.  On `stop`
(lines 163-170): cancel both and clear the variables. -/
def handleEvent (s : HandlerState) : ControlEvent → HandlerState × List HandlerAction
  | .start hasBounds =>
    if !hasBounds then (s, [.send])
    else
      ((⟨true, s.setterTask, s.setterDone, true⟩ : HandlerState),
        (if s.simTask then [.cancel .sim] else []) ++
        (if s.setterTask then [.cancel .setter] else []) ++
        [.send, .create .sim])
  | .updateBounds hasBounds =>
    if !hasBounds then (s, [.send])
    else (s, [.send])
  | .setNumAgents hasNum =>
    if !s.envStarted then (s, [.send])
    else if !hasNum then (s, [.send])
    else
      ((⟨s.simTask, true, false, s.envStarted⟩ : HandlerState),
        (if s.setterTask ∧ ¬s.setterDone then [.cancel .setter] else []) ++
        [.send, .create .setter])
  | .stop =>
    ((⟨false, false, s.setterDone, s.envStarted⟩ : HandlerState),
      (if s.simTask then [.cancel .sim] else []) ++
      (if s.setterTask then [.cancel .setter] else []) ++
      [.send])

/-- Scans an action trace: `true` iff no `create k` occurs before a
`cancel k` does (so any replacement of kind `k` was preceded by a
cancellation request for the prior instance). -/
def cancelBeforeCreate (k : TaskKind) : List HandlerAction → Bool
  | [] => true
  | .create k' :: rest =>
    if k' = k then false else cancelBeforeCreate k rest
  | .cancel k' :: rest =>
    if k' = k then true else cancelBeforeCreate k rest
  | _ :: rest => cancelBeforeCreate k rest

/-- One vehicle agent, the fields of `AgentState` (traffic.py lines 40-49)
the stepper reads and writes (`path_positions`, used only for
visualization output, is omitted). -/
structure Agent where
  position : ℝ × ℝ
  velocity : ℝ × ℝ
  goal : ℝ × ℝ
  path : Option (List Nat)
  pathIndex : Nat

/-- The environment pieces one agent's processing in `step` reads.
`respawn` models the effect of `await self.respawn_agent(agent)` on the
agent (it either assigns a fresh path with `path_index = 0` or leaves the
agent path-less); `edgeSpeedKph u v` models
`self.drive_graph_proj.get_edge_data(u, v)` followed by `[0]`: `none` when
there is no edge, otherwise the first parallel edge's optional `speed_kph`
attribute; `nodePos` is `self.node_positions.get`; `isSignal` is membership
in `self.traffic_signals`; `lightState` is
`self.traffic_light_states.get`. -/
structure StepCtx where
  respawn : Agent → Agent
  edgeSpeedKph : Nat → Nat → Option (Option ℚ)
  nodePos : Nat → Option (ℝ × ℝ)
  isSignal : Nat → Bool
  lightState : Nat → Option LightState

/-- What one agent's processing inside a tick does.
`removedThenIndexError`: the `path_index >= len(path) - 1` branch of line
682 ran `remove_agent` and `add_agent`, then — there being no `continue` —
fell through to line 687 and evaluated `agent.path[agent.path_index + 1]`
with `path_index + 1 >= len(path)`, raising `IndexError` and aborting the
whole tick.  `arrivedRemoved a`: the snap branch advanced the agent onto its
final node (fields `a`) and then removed and replaced it (lines 718-724).
`moved a`: the agent was updated and stays active.  `skipped`: one of the
`continue` statements ran. -/
inductive AgentStepResult where
  | skipped
  | removedThenIndexError
  | arrivedRemoved (a : Agent)
  | moved (a : Agent)

/-- Python truthiness of the `path` attribute: `None` and `[]` are falsy. -/
def pathFalsy : Option (List Nat) → Bool
  | none => true
  | some p => p.isEmpty

/-- The record of the agent the result leaves behind, when one exists. -/
def AgentStepResult.finalAgent : AgentStepResult → Option Agent
  | .arrivedRemoved a => some a
  | .moved a => some a
  | _ => none

/-- Per-agent body of `step` (traffic.py lines 672-726), for one agent of
the tick-start snapshot that is still present in `self.agents`: respawn a
path-less agent (skipping it if still path-less); hit the fall-through
`IndexError` when the path index is already at or past the last position;
otherwise read the edge between the current and next path nodes (skipping
on missing edge data or missing node positions), compute the per-tick
maximum displacement from the edge speed (kph to m/s, then to degrees at
111.32 km per degree), zero the velocity when the next node is a currently
red signal (otherwise steer toward it at full speed when the distance is
positive), and finally either snap onto the next node and advance the path
index — removing and replacing the agent if that was the final node — or
integrate the position by one tick of velocity. -/
noncomputable def stepAgent (ctx : StepCtx) (a0 : Agent) : AgentStepResult :=
  let a := if pathFalsy a0.path then ctx.respawn a0 else a0
  match a.path with
  | none => .skipped
  | some [] => .skipped
  | some p =>
    if p.length - 1 ≤ a.pathIndex then
      .removedThenIndexError
    else
      let cur := p.getD a.pathIndex 0
      let nxt := p.getD (a.pathIndex + 1) 0
      match ctx.edgeSpeedKph cur nxt with
      | none => .skipped
      | some speedAttr =>
        let speedKph : ℚ := speedAttr.getD 30
        let maxSpeedDeg : ℝ := (speedKph : ℝ) * 1000 / 3600 / (111.32 * 1000)
        match ctx.nodePos cur, ctx.nodePos nxt with
        | some _, some nxtPos =>
          let dir : ℝ × ℝ := (nxtPos.1 - a.position.1, nxtPos.2 - a.position.2)
          let dist : ℝ := Real.sqrt (dir.1 ^ 2 + dir.2 ^ 2)
          let vel : ℝ × ℝ :=
            if ctx.isSignal nxt = true ∧ ctx.lightState nxt = some .red then
              (0, 0)
            else if 0 < dist then
              (dir.1 / dist * maxSpeedDeg, dir.2 / dist * maxSpeedDeg)
            else a.velocity
          if dist < maxSpeedDeg then
            let a1 := { a with velocity := vel, position := nxtPos,
                               pathIndex := a.pathIndex + 1 }
            if p.length - 1 ≤ a.pathIndex + 1 then .arrivedRemoved a1
            else .moved a1
          else
            .moved { a with velocity := vel,
                            position := (a.position.1 + vel.1,
                                         a.position.2 + vel.2) }
        | _, _ => .skipped

/-- A concrete step context for exercising the red-light snap: node 2 is a
signal-bearing node that is currently red, every edge exists with no
explicit speed attribute (so the 30 kph default applies), and nodes 1 and 2
sit one millionth of a degree apart. -/
noncomputable def redSnapCtx : StepCtx :=
  ⟨id, fun _ _ => some none,
    fun n =>
      if n = 1 then some ((0 : ℝ), (0 : ℝ))
      else if n = 2 then some ((0 : ℝ), (1/1000000 : ℝ))
      else none,
    fun n => n == 2,
    fun n => if n == 2 then some .red else none⟩

/-- A concrete agent at node 1 heading for the red signal at node 2. -/
def redSnapAgent : Agent :=
  ⟨((0 : ℝ), (0 : ℝ)), ((1 : ℝ), (1 : ℝ)), ((0 : ℝ), (0 : ℝ)),
    some [1, 2, 3], 0⟩

/-! ## Theorems -/

/-- A tick that does not reach the cycle duration only increments the timer. -/
theorem advanceSignal_stay (s : Signal) (h : s.timer + 1 < cycleDuration s) :
    advanceSignal s = { s with timer := s.timer + 1 } := by
  unfold advanceSignal
  rw [if_neg (by omega)]

/-- A tick that reaches the cycle duration resets the timer and flips. -/
theorem advanceSignal_flip (s : Signal) (h : cycleDuration s ≤ s.timer + 1) :
    advanceSignal s = { s with timer := 0, state := s.state.flip } := by
  unfold advanceSignal
  rw [if_pos h]

/-- Closed form of the signal with cycle `{red: 20, green: 30}` starting red
with timer `0`: after `n` completed ticks it is red with timer `n % 50`
during the first 20 ticks of each 50-tick period, and green with timer
`n % 50 - 20` during the remaining 30. -/
theorem sigRed20Green30_closedForm (n : Nat) :
    advanceSignal^[n] sigRed20Green30 =
      ⟨if n % 50 < 20 then .red else .green,
       if n % 50 < 20 then n % 50 else n % 50 - 20, 20, 30⟩ := by
  induction n with
  | zero => simp [sigRed20Green30]
  | succ n ih =>
    rw [Function.iterate_succ_apply', ih]
    have h50 : n % 50 < 50 := Nat.mod_lt _ (by norm_num)
    rcases Nat.lt_or_ge (n % 50) 20 with h | h
    · rw [if_pos h, if_pos h]
      rcases Nat.lt_or_ge (n % 50) 19 with h19 | h19
      · have e1 : (n + 1) % 50 = n % 50 + 1 := by omega
        rw [advanceSignal_stay _
          (show (⟨.red, n % 50, 20, 30⟩ : Signal).timer + 1 <
              cycleDuration ⟨.red, n % 50, 20, 30⟩ from by
            simp only [cycleDuration]; omega)]
        rw [e1, if_pos (by omega : n % 50 + 1 < 20),
          if_pos (by omega : n % 50 + 1 < 20)]
      · have e2 : (n + 1) % 50 = 20 := by omega
        rw [advanceSignal_flip _
          (show cycleDuration ⟨.red, n % 50, 20, 30⟩ ≤
              (⟨.red, n % 50, 20, 30⟩ : Signal).timer + 1 from by
            simp only [cycleDuration]; omega)]
        rw [e2, if_neg (by omega : ¬(20 < 20)), if_neg (by omega : ¬(20 < 20))]
        rfl
    · rw [if_neg (by omega : ¬(n % 50 < 20)), if_neg (by omega : ¬(n % 50 < 20))]
      rcases Nat.lt_or_ge (n % 50) 49 with h49 | h49
      · have e1 : (n + 1) % 50 = n % 50 + 1 := by omega
        rw [advanceSignal_stay _
          (show (⟨.green, n % 50 - 20, 20, 30⟩ : Signal).timer + 1 <
              cycleDuration ⟨.green, n % 50 - 20, 20, 30⟩ from by
            simp only [cycleDuration]; omega)]
        rw [e1, if_neg (by omega : ¬(n % 50 + 1 < 20)),
          if_neg (by omega : ¬(n % 50 + 1 < 20))]
        have e3 : n % 50 - 20 + 1 = n % 50 + 1 - 20 := by omega
        rw [show ({ (⟨.green, n % 50 - 20, 20, 30⟩ : Signal) with
            timer := n % 50 - 20 + 1 } : Signal) =
            ⟨.green, n % 50 - 20 + 1, 20, 30⟩ from rfl, e3]
      · have e4 : (n + 1) % 50 = 0 := by omega
        rw [advanceSignal_flip _
          (show cycleDuration ⟨.green, n % 50 - 20, 20, 30⟩ ≤
              (⟨.green, n % 50 - 20, 20, 30⟩ : Signal).timer + 1 from by
            simp only [cycleDuration]; omega)]
        rw [e4, if_pos (by omega : (0 : Nat) < 20),
          if_pos (by omega : (0 : Nat) < 20)]
        rfl

/-- C1: one tick increments a signal's timer and, when the incremented timer
reaches the cycle duration of its current state, resets it and flips the
state; a signal with cycle `{red: 20, green: 30}` starting red with timer 0
is therefore green from the tick numbered 20, red again from the tick
numbered 50, and repeats with fixed period 50. -/
theorem signal_cycle_red20_green30 (n : Nat) :
    ((advanceSignal^[n] sigRed20Green30).state =
      if n % 50 < 20 then LightState.red else LightState.green) ∧
    advanceSignal^[n + 50] sigRed20Green30 = advanceSignal^[n] sigRed20Green30 := by
  refine ⟨?_, ?_⟩
  · rw [sigRed20Green30_closedForm]
  · rw [sigRed20Green30_closedForm, sigRed20Green30_closedForm]
    have h : (n + 50) % 50 = n % 50 := by omega
    rw [h]

/-- C10: constructed with `show_traffic_lights = False`, the environment
never creates the traffic-light tables, and the signal phase of the very
first `step` raises `AttributeError` on `self.traffic_light_timers`, so the
tick loop cannot complete even one step. -/
theorem hidden_lights_first_tick_attribute_error (discovered : List Nat)
    (randState : Nat → LightState) (randRed randGreen : Nat → Nat) :
    envInitLights false discovered randState randRed randGreen = none ∧
    stepTrafficLightsPhase
        (envInitLights false discovered randState randRed randGreen) =
      .error .attributeError :=
  ⟨rfl, rfl⟩

/-- C3 counterexample: a bounds update that needs new tiles re-initializes a
signal node that already had state (node 7 here: green, timer 5, cycles
25/30), giving it fresh random state with timer 0 — not leaving it
unchanged as the claim states. -/
theorem reinit_overwrites_existing_signal_state :
    updateBoundsLights false true true [7] [7]
        (some [(7, ⟨.green, 5, 25, 30⟩)]) (fun _ => .red) (fun _ => 0)
        (fun _ => 0) =
      some [(7, ⟨.red, 0, 20, 20⟩)] ∧
    updateBoundsLights false true true [7] [7]
        (some [(7, ⟨.green, 5, 25, 30⟩)]) (fun _ => .red) (fun _ => 0)
        (fun _ => 0) ≠
      some [(7, ⟨.green, 5, 25, 30⟩)] := by
  exact ⟨rfl, by decide⟩

/-- C3 amended: whenever `_initialize_traffic_lights` actually runs (any
bounds update that loads new tiles with lights shown), it discards all prior
signal state and rebuilds the table with fresh random draws and timer 0 for
every currently discovered signal node; prior state survives only when
re-initialization is skipped entirely — a covered-bounds update whose
lights were already shown (or whose signal set is nonempty), or a reload
with lights hidden. -/
theorem reinit_replaces_all_signals (disc priorSignals : List Nat)
    (prior : Option LightTables) (oldShow : Bool)
    (randState : Nat → LightState) (randRed randGreen : Nat → Nat) :
    updateBoundsLights false true oldShow priorSignals disc prior
        randState randRed randGreen =
      some (initTrafficLights disc randState randRed randGreen) ∧
    updateBoundsLights false false oldShow priorSignals disc prior
        randState randRed randGreen = prior ∧
    updateBoundsLights true true true priorSignals disc prior
        randState randRed randGreen = prior ∧
    (initTrafficLights disc randState randRed randGreen).map Prod.fst = disc ∧
    (initTrafficLights disc randState randRed randGreen).all
      (fun e => e.2.timer == 0) = true := by
  refine ⟨rfl, rfl, by simp [updateBoundsLights], ?_, ?_⟩
  · rw [initTrafficLights, List.map_map]
    rw [show (Prod.fst ∘ fun e : Nat × Nat =>
        ((e.2 : Nat), (⟨randState e.1, 0, 20 + randRed e.1 % 20,
          20 + randGreen e.1 % 20⟩ : Signal))) = Prod.snd from rfl]
    exact List.enum_map_snd disc
  · rw [initTrafficLights, List.all_eq_true]
    intro e he
    rw [List.mem_map] at he
    obtain ⟨x, _, rfl⟩ := he
    rfl

/-- C6 counterexample: a provider failure other than "no data"
(any exception from `ox.graph_from_bbox` that is not
`InsufficientResponseError`) propagates out of `_load_tile_graph` uncaught
instead of making the function return "no tile". -/
theorem provider_failure_propagates :
    loadTileGraphFetch .failed (fun _ => some emptyTile) =
      .error .providerError ∧
    loadTileGraphFetch .failed (fun _ => some emptyTile) ≠
      .ok ⟨none, none⟩ := by
  exact ⟨rfl, by simp [loadTileGraphFetch]⟩

/-- C6 amended: on "no data in region" the fetch path synthesizes, persists
and returns the empty tile; when processing of fetched data fails it
returns no tile and caches nothing (so the next access re-fetches); but a
provider fetch failure other than "no data" is not caught — it raises out
of the function rather than returning no tile. -/
theorem load_tile_fetch_outcomes (process : RawGraph → Option Tile)
    (g : RawGraph) :
    loadTileGraphFetch .noData process =
      .ok ⟨some emptyTile, some emptyTile⟩ ∧
    loadTileGraphFetch .failed process = .error .providerError ∧
    loadTileGraphFetch (.fetched g) process = .ok ⟨process g, process g⟩ := by
  refine ⟨rfl, rfl, ?_⟩
  cases hpg : process g <;> simp [loadTileGraphFetch, hpg]

/-- Rendering congruence for the fixed-point formatting: two values with the
same rounded scaled integer and the same sign render identically. -/
theorem fmt4_congr {x y : ℚ}
    (h : rndHalfEven (x * 10000) = rndHalfEven (y * 10000))
    (hs : x < 0 ↔ y < 0) : fmt4 x = fmt4 y := by
  simp only [fmt4]
  rw [h, if_congr hs rfl rfl]

/-- C4 counterexample: two bounds that agree through the 4th decimal place
(minLat `0.00004` vs `0.00006`, other fields identical) render to different
4-decimal strings (`0.0000` vs `0.0001`) because the formatting rounds
rather than truncates, so their cache keys differ. -/
theorem near_bounds_different_cache_key :
    boundsAgreeToFourDecimals ⟨4/100000, 1, 0, 1⟩ ⟨6/100000, 1, 0, 1⟩ ∧
    cachePathInput ⟨4/100000, 1, 0, 1⟩ ≠ cachePathInput ⟨6/100000, 1, 0, 1⟩ := by
  have r4 : rndHalfEven ((4/100000 : ℚ) * 10000) = 0 := by
    norm_num [rndHalfEven]
  have r6 : rndHalfEven ((6/100000 : ℚ) * 10000) = 1 := by
    norm_num [rndHalfEven]
  have r0 : rndHalfEven ((0 : ℚ) * 10000) = 0 := by
    norm_num [rndHalfEven]
  have r1 : rndHalfEven ((1 : ℚ) * 10000) = 10000 := by
    norm_num [rndHalfEven]
  have f4 : fmt4 (4/100000 : ℚ) = "0.0000" := by
    simp only [fmt4, r4, if_neg (by norm_num : ¬((4/100000 : ℚ) < 0))]
    decide
  have f6 : fmt4 (6/100000 : ℚ) = "0.0001" := by
    simp only [fmt4, r6, if_neg (by norm_num : ¬((6/100000 : ℚ) < 0))]
    decide
  have f0 : fmt4 (0 : ℚ) = "0.0000" := by
    simp only [fmt4, r0, if_neg (by norm_num : ¬((0 : ℚ) < 0))]
    decide
  have f1 : fmt4 (1 : ℚ) = "1.0000" := by
    simp only [fmt4, r1, if_neg (by norm_num : ¬((1 : ℚ) < 0))]
    decide
  refine ⟨⟨?_, rfl, rfl, rfl⟩, ?_⟩
  · show ⌊(4/100000 : ℚ) * 10000⌋ = ⌊(6/100000 : ℚ) * 10000⌋
    norm_num
  · show fmt4 ((4:ℚ)/100000) ++ "," ++ fmt4 1 ++ "," ++ fmt4 0 ++ "," ++
        fmt4 1 ≠ fmt4 ((6:ℚ)/100000) ++ "," ++ fmt4 1 ++ "," ++ fmt4 0 ++
        "," ++ fmt4 1
    rw [f4, f6, f0, f1]
    decide

/-- C4 amended: the tile key is a hash of the bounds rendered at 4 decimal
places with rounding; two bounds whose four fields each round to the same
4-decimal rendering (same rounded scaled integer, same sign) produce the
same hash input and hence the same tile key. -/
theorem cache_key_stable_on_rounding (b1 b2 : Bounds)
    (h1 : rndHalfEven (b1.minLat * 10000) = rndHalfEven (b2.minLat * 10000))
    (h2 : rndHalfEven (b1.maxLat * 10000) = rndHalfEven (b2.maxLat * 10000))
    (h3 : rndHalfEven (b1.minLng * 10000) = rndHalfEven (b2.minLng * 10000))
    (h4 : rndHalfEven (b1.maxLng * 10000) = rndHalfEven (b2.maxLng * 10000))
    (s1 : b1.minLat < 0 ↔ b2.minLat < 0)
    (s2 : b1.maxLat < 0 ↔ b2.maxLat < 0)
    (s3 : b1.minLng < 0 ↔ b2.minLng < 0)
    (s4 : b1.maxLng < 0 ↔ b2.maxLng < 0) :
    cachePathInput b1 = cachePathInput b2 := by
  unfold cachePathInput
  rw [fmt4_congr h1 s1, fmt4_congr h2 s2, fmt4_congr h3 s3, fmt4_congr h4 s4]

/-- Witness for the amended C4 theorem: minLat `0.12341` vs `0.12342`, both
rendering to `0.1234`, yield the same hash input. -/
theorem cache_key_stable_on_rounding_witness :
    (rndHalfEven ((12341/100000 : ℚ) * 10000) =
        rndHalfEven ((12342/100000 : ℚ) * 10000) ∧
      ((12341/100000 : ℚ) < 0 ↔ (12342/100000 : ℚ) < 0)) ∧
    cachePathInput ⟨12341/100000, 2, 3, 4⟩ =
      cachePathInput ⟨12342/100000, 2, 3, 4⟩ := by
  have h1 : rndHalfEven ((12341/100000 : ℚ) * 10000) =
      rndHalfEven ((12342/100000 : ℚ) * 10000) := by
    rw [show rndHalfEven ((12341/100000 : ℚ) * 10000) = 1234 from by
        norm_num [rndHalfEven],
      show rndHalfEven ((12342/100000 : ℚ) * 10000) = 1234 from by
        norm_num [rndHalfEven]]
  have hs : (12341/100000 : ℚ) < 0 ↔ (12342/100000 : ℚ) < 0 := by norm_num
  exact ⟨⟨h1, hs⟩,
    cache_key_stable_on_rounding ⟨12341/100000, 2, 3, 4⟩ ⟨12342/100000, 2, 3, 4⟩
      h1 rfl rfl rfl hs Iff.rfl Iff.rfl Iff.rfl⟩

/-- One axis of `_generate_snapped_bounds`: with positive resolution and an
incoming span of at most `mz`, the snapped interval is nonempty and its
span stays below `mz + 2·res`. -/
theorem snap_axis_bounds (lo hi res mz : ℚ) (hres : 0 < res) (hmz : 0 < mz)
    (hspan : hi - lo ≤ mz) :
    ((⌊lo / res⌋ : ℚ) * res <
      (if (⌈hi / res⌉ : ℚ) * res ≤ (⌊lo / res⌋ : ℚ) * res
       then (⌊lo / res⌋ : ℚ) * res + res
       else (⌈hi / res⌉ : ℚ) * res)) ∧
    ((if (⌈hi / res⌉ : ℚ) * res ≤ (⌊lo / res⌋ : ℚ) * res
      then (⌊lo / res⌋ : ℚ) * res + res
      else (⌈hi / res⌉ : ℚ) * res) - (⌊lo / res⌋ : ℚ) * res <
      mz + 2 * res) := by
  have hne : res ≠ 0 := ne_of_gt hres
  have e1 : lo / res * res = lo := div_mul_cancel₀ lo hne
  have e2 : hi / res * res = hi := div_mul_cancel₀ hi hne
  have hfl : (⌊lo / res⌋ : ℚ) * res ≤ lo := by
    have h := mul_le_mul_of_nonneg_right (Int.floor_le (lo / res)) hres.le
    rwa [e1] at h
  have hfl2 : lo - res < (⌊lo / res⌋ : ℚ) * res := by
    have h := mul_lt_mul_of_pos_right (Int.sub_one_lt_floor (lo / res)) hres
    rw [sub_mul, e1, one_mul] at h
    exact h
  have hcl : hi ≤ (⌈hi / res⌉ : ℚ) * res := by
    have h := mul_le_mul_of_nonneg_right (Int.le_ceil (hi / res)) hres.le
    rwa [e2] at h
  have hcl2 : (⌈hi / res⌉ : ℚ) * res < hi + res := by
    have h := mul_lt_mul_of_pos_right (Int.ceil_lt_add_one (hi / res)) hres
    rw [add_mul, e2, one_mul] at h
    exact h
  by_cases hc : (⌈hi / res⌉ : ℚ) * res ≤ (⌊lo / res⌋ : ℚ) * res
  · rw [if_pos hc]
    constructor
    · linarith
    · linarith
  · rw [if_neg hc]
    constructor
    · linarith [not_le.mp hc]
    · linarith

/-- Both axes of `_generate_snapped_bounds` under the per-axis lemma. -/
theorem generateSnappedBounds_invariant (b : Bounds) (res mz : ℚ)
    (hres : 0 < res) (hmz : 0 < mz) (hlat : b.maxLat - b.minLat ≤ mz)
    (hlng : b.maxLng - b.minLng ≤ mz) :
    ((generateSnappedBounds b res).minLat <
        (generateSnappedBounds b res).maxLat ∧
      (generateSnappedBounds b res).minLng <
        (generateSnappedBounds b res).maxLng) ∧
    ((generateSnappedBounds b res).maxLat -
        (generateSnappedBounds b res).minLat < mz + 2 * res ∧
      (generateSnappedBounds b res).maxLng -
        (generateSnappedBounds b res).minLng < mz + 2 * res) := by
  obtain ⟨hl1, hl2⟩ := snap_axis_bounds b.minLat b.maxLat res mz hres hmz hlat
  obtain ⟨hg1, hg2⟩ := snap_axis_bounds b.minLng b.maxLng res mz hres hmz hlng
  exact ⟨⟨hl1, hg1⟩, ⟨hl2, hg2⟩⟩

/-- C5 amended: after clamping oversized axes and snapping, `min < max`
holds on both axes and each axis span is below
`max_zoom + 2·snap_resolution`; the claim's bound of `max_zoom` itself does
not survive the outward snapping. -/
theorem snapped_bounds_invariant (b : Bounds) (maxZoom res : ℚ)
    (hres : 0 < res) (hmz : 0 < maxZoom) :
    ((getRequiredTileBounds b maxZoom res).minLat <
        (getRequiredTileBounds b maxZoom res).maxLat ∧
      (getRequiredTileBounds b maxZoom res).minLng <
        (getRequiredTileBounds b maxZoom res).maxLng) ∧
    ((getRequiredTileBounds b maxZoom res).maxLat -
        (getRequiredTileBounds b maxZoom res).minLat < maxZoom + 2 * res ∧
      (getRequiredTileBounds b maxZoom res).maxLng -
        (getRequiredTileBounds b maxZoom res).minLng < maxZoom + 2 * res) := by
  simp only [getRequiredTileBounds]
  by_cases hc : maxZoom < b.maxLat - b.minLat ∨ maxZoom < b.maxLng - b.minLng
  · rw [if_pos hc]
    refine generateSnappedBounds_invariant _ res maxZoom hres hmz ?_ ?_
    · show b.minLat + min (b.maxLat - b.minLat) maxZoom - b.minLat ≤ maxZoom
      have := min_le_right (b.maxLat - b.minLat) maxZoom
      linarith
    · show b.minLng + min (b.maxLng - b.minLng) maxZoom - b.minLng ≤ maxZoom
      have := min_le_right (b.maxLng - b.minLng) maxZoom
      linarith
  · rw [if_neg hc]
    push_neg at hc
    exact generateSnappedBounds_invariant b res maxZoom hres hmz hc.1 hc.2

/-- C5 counterexample: input bounds `(0.01, 0.51) x (0, 0.05)` with
`max_zoom = 0.5` and `snap_resolution = 0.05` pass the clamp untouched
(span exactly `0.5`) and snap to a latitude span of `0.55 > max_zoom`. -/
theorem snapped_span_exceeds_max_zoom :
    ¬((getRequiredTileBounds ⟨1/100, 51/100, 0, 1/20⟩ (1/2) (1/20)).maxLat -
        (getRequiredTileBounds ⟨1/100, 51/100, 0, 1/20⟩ (1/2) (1/20)).minLat ≤
      1/2) := by
  have hfl : ⌊((1:ℚ)/100) / (1/20)⌋ = 0 := by norm_num
  have hcl : ⌈(51/5 : ℚ)⌉ = 11 := by
    rw [Int.ceil_eq_iff]
    norm_num
  simp only [getRequiredTileBounds, generateSnappedBounds]
  rw [if_neg (by norm_num :
    ¬((1:ℚ)/2 < 51/100 - 1/100 ∨ (1:ℚ)/2 < 1/20 - 0))]
  norm_num [hfl, hcl]

/-- Witness for the amended C5 theorem at the counterexample's inputs. -/
theorem snapped_bounds_invariant_witness :
    ((0 : ℚ) < 1/20 ∧ (0 : ℚ) < 1/2) ∧
    (((getRequiredTileBounds ⟨1/100, 51/100, 0, 1/20⟩ (1/2) (1/20)).minLat <
        (getRequiredTileBounds ⟨1/100, 51/100, 0, 1/20⟩ (1/2) (1/20)).maxLat ∧
      (getRequiredTileBounds ⟨1/100, 51/100, 0, 1/20⟩ (1/2) (1/20)).minLng <
        (getRequiredTileBounds ⟨1/100, 51/100, 0, 1/20⟩ (1/2) (1/20)).maxLng) ∧
    ((getRequiredTileBounds ⟨1/100, 51/100, 0, 1/20⟩ (1/2) (1/20)).maxLat -
        (getRequiredTileBounds ⟨1/100, 51/100, 0, 1/20⟩ (1/2) (1/20)).minLat <
        1/2 + 2 * (1/20) ∧
      (getRequiredTileBounds ⟨1/100, 51/100, 0, 1/20⟩ (1/2) (1/20)).maxLng -
        (getRequiredTileBounds ⟨1/100, 51/100, 0, 1/20⟩ (1/2) (1/20)).minLng <
        1/2 + 2 * (1/20))) :=
  ⟨⟨by norm_num, by norm_num⟩,
    snapped_bounds_invariant ⟨1/100, 51/100, 0, 1/20⟩ (1/2) (1/20)
      (by norm_num) (by norm_num)⟩

/-- The bounded retry loop equals a first-success scan over the drawn pairs
for the remaining attempt indices. -/
theorem tryPathsFrom_eq_findSome (sp : Nat → Nat → Option (List Nat))
    (draws : Nat → Nat × Nat) (fuel : Nat) : ∀ i,
    tryPathsFrom sp draws i fuel =
      ((List.range' i fuel).map draws).findSome? (acceptAttempt sp) := by
  induction fuel with
  | zero => intro i; rfl
  | succ f ih =>
    intro i
    rw [List.range'_succ, List.map_cons, List.findSome?_cons]
    show (match acceptAttempt sp (draws i) with
      | some p => some p
      | none => tryPathsFrom sp draws (i + 1) f) = _
    cases acceptAttempt sp (draws i) with
    | none => simpa using ih (i + 1)
    | some p => rfl

/-- An accepted attempt always carries a path of at least two nodes. -/
theorem acceptAttempt_length {sp : Nat → Nat → Option (List Nat)}
    {d : Nat × Nat} {p : List Nat} (h : acceptAttempt sp d = some p) :
    1 < p.length := by
  unfold acceptAttempt at h
  cases hsp : sp d.1 d.2 with
  | none => rw [hsp] at h; exact absurd h (by simp)
  | some q =>
    rw [hsp] at h
    have h' : (if 1 < q.length then some q else none) = some p := h
    by_cases hq : 1 < q.length
    · rw [if_pos hq] at h'
      cases h'
      exact hq
    · rw [if_neg hq] at h'
      exact absurd h' (by simp)

/-- C7: path planning terminates within the fixed 20-attempt budget: with a
usable candidate pool it returns exactly the first drawn pair among the 20
whose shortest path has more than one node (none when every attempt fails,
in particular on graphs where every drawn pair is unreachable), and any
returned path has at least two nodes. -/
theorem respawn_plan_within_budget (viewportNodes allValidNodes : List Nat)
    (sp : Nat → Nat → Option (List Nat)) (draws : Nat → Nat × Nat) :
    respawnAgentPlan viewportNodes allValidNodes sp draws =
      (if (if viewportNodes.length < 2 then allValidNodes
           else viewportNodes).length < 2 then none
       else ((List.range 20).map draws).findSome? (acceptAttempt sp)) ∧
    (respawnAgentPlan viewportNodes allValidNodes sp draws).all
      (fun p => decide (1 < p.length)) = true := by
  have heq : respawnAgentPlan viewportNodes allValidNodes sp draws =
      (if (if viewportNodes.length < 2 then allValidNodes
           else viewportNodes).length < 2 then none
       else ((List.range 20).map draws).findSome? (acceptAttempt sp)) := by
    unfold respawnAgentPlan
    by_cases hc : (if viewportNodes.length < 2 then allValidNodes
        else viewportNodes).length < 2
    · rw [if_pos hc, if_pos hc]
    · rw [if_neg hc, if_neg hc, tryPathsFrom_eq_findSome,
        List.range_eq_range']
  refine ⟨heq, ?_⟩
  cases hres : respawnAgentPlan viewportNodes allValidNodes sp draws with
  | none => rfl
  | some p =>
    rw [hres] at heq
    by_cases hc : (if viewportNodes.length < 2 then allValidNodes
        else viewportNodes).length < 2
    · rw [if_pos hc] at heq
      exact absurd heq (by simp)
    · rw [if_neg hc] at heq
      obtain ⟨d, _, hd⟩ := List.exists_of_findSome?_eq_some heq.symm
      have := acceptAttempt_length hd
      show decide (1 < p.length) = true
      exact decide_eq_true this

/-- C8 counterexample: with a tick loop in flight (`simulation_task` set), a
second `start` request creates the replacement task while the trace contains
no await of the cancelled predecessor's termination. -/
theorem restart_never_awaits_prior_task :
    HandlerAction.create .sim ∈
      (handleEvent ⟨true, false, false, true⟩ (.start true)).2 ∧
    HandlerAction.awaitJoin .sim ∉
      (handleEvent ⟨true, false, false, true⟩ (.start true)).2 := by
  decide

/-- C8 amended: the handler cancels the prior instance of the same task kind
before creating its replacement, but it never awaits the cancelled task's
termination — no event's action trace contains a join, so the replacement
is created while the cancelled predecessor may still be pending. -/
theorem cancel_requested_but_not_awaited (s : HandlerState) :
    (∀ e, ((handleEvent s e).2.all (fun a => !a.isJoin)) = true) ∧
    (s.simTask = true →
      cancelBeforeCreate .sim ((handleEvent s (.start true)).2) = true) ∧
    (s.setterTask = true → s.setterDone = false →
      cancelBeforeCreate .setter
        ((handleEvent s (.setNumAgents true)).2) = true) := by
  obtain ⟨st, se, sd, ev⟩ := s
  refine ⟨?_, ?_, ?_⟩
  · intro e
    cases e with
    | start hb => cases hb <;> cases st <;> cases se <;> rfl
    | updateBounds hb => cases hb <;> rfl
    | setNumAgents hn =>
      cases hn <;> cases ev <;> cases se <;> cases sd <;> rfl
    | stop => cases st <;> cases se <;> rfl
  · intro hst
    subst hst
    cases se <;> rfl
  · intro hse hsd
    subst hse
    subst hsd
    cases ev <;> cases st <;> rfl

/-- Witness for the amended C8 theorem: a state with both a running tick
loop and a running (unfinished) setter task. -/
theorem cancel_requested_but_not_awaited_witness :
    ((⟨true, true, false, true⟩ : HandlerState).simTask = true ∧
      (⟨true, true, false, true⟩ : HandlerState).setterTask = true ∧
      (⟨true, true, false, true⟩ : HandlerState).setterDone = false) ∧
    cancelBeforeCreate .sim
      ((handleEvent ⟨true, true, false, true⟩ (.start true)).2) = true ∧
    cancelBeforeCreate .setter
      ((handleEvent ⟨true, true, false, true⟩ (.setNumAgents true)).2) = true :=
  ⟨⟨rfl, rfl, rfl⟩,
    (cancel_requested_but_not_awaited ⟨true, true, false, true⟩).2.1 rfl,
    (cancel_requested_but_not_awaited ⟨true, true, false, true⟩).2.2 rfl rfl⟩

/-- C2 (code bug): an agent that begins its processing with `path_index`
already at the last position of its path (here path `[101, 102]` with
`path_index = 1`) is removed and replaced, but the loop body then falls
through — there is no `continue` after the removal of line 683-684 — and
evaluates `agent.path[agent.path_index + 1]`, an index past the end of the
path, raising `IndexError` and aborting the whole tick instead of ending
that agent's processing after the removal. -/
theorem last_index_agent_index_error :
    stepAgent
      ⟨id, fun _ _ => none, fun _ => none, fun _ => false, fun _ => none⟩
      ⟨(0, 0), (0, 0), (0, 0), some [101, 102], 1⟩ =
      .removedThenIndexError := rfl

/-- C9: an agent whose next path node is a signal-bearing node currently
red, and whose remaining distance to that node is strictly below its
per-tick maximum displacement, is still set exactly onto that node with its
path index advanced that same tick: the red light zeroes the velocity
(lines 712-713) but does not guard the snap branch (lines 718-720). -/
theorem red_light_does_not_prevent_snap (ctx : StepCtx) (a : Agent)
    (p : List Nat) (speedAttr : Option ℚ) (cpos npos : ℝ × ℝ)
    (hpath : a.path = some p)
    (hidx : a.pathIndex + 1 < p.length)
    (hedge : ctx.edgeSpeedKph (p.getD a.pathIndex 0)
      (p.getD (a.pathIndex + 1) 0) = some speedAttr)
    (hcur : ctx.nodePos (p.getD a.pathIndex 0) = some cpos)
    (hnxt : ctx.nodePos (p.getD (a.pathIndex + 1) 0) = some npos)
    (hsig : ctx.isSignal (p.getD (a.pathIndex + 1) 0) = true)
    (hred : ctx.lightState (p.getD (a.pathIndex + 1) 0) = some .red)
    (hdist : Real.sqrt ((npos.1 - a.position.1) ^ 2 +
        (npos.2 - a.position.2) ^ 2) <
      ((speedAttr.getD 30 : ℚ) : ℝ) * 1000 / 3600 / (111.32 * 1000)) :
    (stepAgent ctx a).finalAgent =
      some { a with velocity := ((0 : ℝ), (0 : ℝ)), position := npos,
                    pathIndex := a.pathIndex + 1 } := by
  obtain ⟨x, xs, rfl⟩ : ∃ x xs, p = x :: xs := by
    cases p with
    | nil => simp at hidx
    | cons x xs => exact ⟨x, xs, rfl⟩
  have hni : ¬((x :: xs).length - 1 ≤ a.pathIndex) := by
    simp only [List.length_cons] at hidx ⊢
    omega
  simp only [stepAgent, hpath, pathFalsy, List.isEmpty_cons,
    Bool.false_eq_true, if_false, hedge, hcur, hnxt]
  rw [if_neg hni, if_pos (⟨hsig, hred⟩ :
    ctx.isSignal ((x :: xs).getD (a.pathIndex + 1) 0) = true ∧
    ctx.lightState ((x :: xs).getD (a.pathIndex + 1) 0) =
      some LightState.red)]
  rw [if_pos hdist]
  by_cases hfin : (x :: xs).length - 1 ≤ a.pathIndex + 1
  · rw [if_pos hfin]
    rfl
  · rw [if_neg hfin]
    rfl

/-- Witness for C9 at the concrete two-edge path approaching the red signal
at node 2: the agent snaps onto the red-signal node with zero velocity and
an advanced path index. -/
theorem red_light_does_not_prevent_snap_witness :
    (redSnapAgent.path = some [1, 2, 3] ∧
      redSnapAgent.pathIndex + 1 < [1, 2, 3].length ∧
      redSnapCtx.edgeSpeedKph ([1, 2, 3].getD redSnapAgent.pathIndex 0)
        ([1, 2, 3].getD (redSnapAgent.pathIndex + 1) 0) = some none ∧
      redSnapCtx.nodePos ([1, 2, 3].getD redSnapAgent.pathIndex 0) =
        some ((0 : ℝ), (0 : ℝ)) ∧
      redSnapCtx.nodePos ([1, 2, 3].getD (redSnapAgent.pathIndex + 1) 0) =
        some ((0 : ℝ), (1/1000000 : ℝ)) ∧
      redSnapCtx.isSignal
        ([1, 2, 3].getD (redSnapAgent.pathIndex + 1) 0) = true ∧
      redSnapCtx.lightState ([1, 2, 3].getD (redSnapAgent.pathIndex + 1) 0) =
        some .red ∧
      Real.sqrt
          ((((0 : ℝ), (1/1000000 : ℝ)).1 - redSnapAgent.position.1) ^ 2 +
            (((0 : ℝ), (1/1000000 : ℝ)).2 - redSnapAgent.position.2) ^ 2) <
        (((none : Option ℚ).getD 30 : ℚ) : ℝ) * 1000 / 3600 /
          (111.32 * 1000)) ∧
    (stepAgent redSnapCtx redSnapAgent).finalAgent =
      some { redSnapAgent with
              velocity := ((0 : ℝ), (0 : ℝ)),
              position := ((0 : ℝ), (1/1000000 : ℝ)),
              pathIndex := redSnapAgent.pathIndex + 1 } := by
  have hd : Real.sqrt
      ((((0 : ℝ), (1/1000000 : ℝ)).1 - redSnapAgent.position.1) ^ 2 +
        (((0 : ℝ), (1/1000000 : ℝ)).2 - redSnapAgent.position.2) ^ 2) <
      (((none : Option ℚ).getD 30 : ℚ) : ℝ) * 1000 / 3600 /
        (111.32 * 1000) := by
    have e : ((((0 : ℝ), (1/1000000 : ℝ)).1 - redSnapAgent.position.1) ^ 2 +
        (((0 : ℝ), (1/1000000 : ℝ)).2 - redSnapAgent.position.2) ^ 2) =
        (1/1000000 : ℝ) ^ 2 := by
      show ((0 : ℝ) - 0) ^ 2 + ((1/1000000 : ℝ) - 0) ^ 2 = (1/1000000 : ℝ) ^ 2
      norm_num
    rw [e, Real.sqrt_sq (by norm_num : (0 : ℝ) ≤ 1/1000000)]
    show (1/1000000 : ℝ) < ((30 : ℚ) : ℝ) * 1000 / 3600 / (111.32 * 1000)
    norm_num
  exact ⟨⟨rfl, by norm_num [redSnapAgent], rfl, rfl, rfl, rfl, rfl, hd⟩,
    red_light_does_not_prevent_snap redSnapCtx redSnapAgent [1, 2, 3] none
      ((0 : ℝ), (0 : ℝ)) ((0 : ℝ), (1/1000000 : ℝ)) rfl
      (by norm_num [redSnapAgent]) rfl rfl rfl rfl rfl hd⟩

end Traffic
